import Mathlib

/-!
Formal model of the library catalog service core: the external metadata
client with retry/backoff, the lookup cache and its key scheme, the
enrichment coordinator, and the catalog service (create / read / delete)
with its cache-invalidation policy, together with theorems about the
behaviours the specification describes.

Python strings are modelled as Lean `String`; Python ints as `Int`
(`Nat` where the value is structurally nonnegative, e.g. counters);
Python `None` as `Option.none`; raised exceptions as `Except` errors.
-/

namespace LibraryCatalog

/-! ### Python string primitives used by the cache-key scheme
(`str.lower`, `str.strip`, `str.replace`, `str.isdigit`). -/

/-- Python `str.lower` (ASCII case mapping, character-wise). -/
def py_lower (s : String) : String := String.mk (s.toList.map Char.toLower)

/-- Characters Python `str.strip()` removes by default. -/
def pyIsSpace (c : Char) : Bool :=
  c = ' ' || c = '\t' || c = '\n' || c = '\r' || c = '\x0b' || c = '\x0c'

/-- Python `str.strip()`: drop leading and trailing whitespace. -/
def py_strip (s : String) : String :=
  String.mk (((s.toList.dropWhile pyIsSpace).reverse.dropWhile pyIsSpace).reverse)

/-- Python `str.isdigit` restricted to ASCII digits (`"".isdigit()` is `False`). -/
def pyIsDigit (s : String) : Bool :=
  !(s.toList.isEmpty) && s.toList.all Char.isDigit

/-! ### Cache keys (`core/cache.py`, class `CacheKeys`) -/

namespace CacheKeys

/-- Key for an OpenLibrary ISBN lookup: fixed prefix plus the raw ISBN. -/
def openlibrary_isbn (isbn : String) : String := "ol:isbn:" ++ isbn

/-- Key for an OpenLibrary title/author lookup: the title and author are
lowercased and stripped before being interpolated into the template. -/
def openlibrary_title_author (title author : String) : String :=
  "ol:title:" ++ py_strip (py_lower title) ++ ":author:" ++ py_strip (py_lower author)

/-- Key for a book-detail (read-by-id) cache entry. -/
def book_detail (book_id : Nat) : String := "book:" ++ toString book_id

/-- Key used to invalidate the books-list cache. -/
def books_list_all : String := "books:list:*"

end CacheKeys

/-! ### Cache TTL accounting (`core/config.py`, `core/cache.py`)

The cache instance is created with `ttl=settings.cache_ttl`; every
`cache.set(key, value)` call in the code base passes no per-call ttl
argument, so the instance default applies. -/

/-- Default of `Settings.cache_ttl` (seconds). -/
def cache_ttl : Nat := 300

/-- Effective TTL applied by a `set` call: the explicit argument when one
is passed, otherwise the cache instance default `cache_ttl`. -/
def effectiveTTL (ttlArg : Option Nat) : Nat := ttlArg.getD cache_ttl

/-- TTL of the write performed by `BookService.get_book`
(`cache.set(cache_key, book_dict)` — no ttl argument). -/
def bookDetailWriteTTL : Nat := effectiveTTL none

/-- TTL of the write performed by `OpenLibraryClient.search_by_isbn` /
`search_by_title_author` (`cache.set(cache_key, result)` — no ttl argument). -/
def openlibraryWriteTTL : Nat := effectiveTTL none

/-! ### Pagination (`api/v1/schemas/common.py`, `data/repositories/book_repository.py`) -/

/-- A stored book row (`data/models/book.py`), restricted to the columns the
service reads and writes.  `extra` is the JSON column for enrichment
metadata, modelled as an association list. -/
structure BookRec where
  book_id : Nat
  title : String
  author : String
  year : Int
  genre : Option String
  pages : Int
  available : Bool
  isbn : Option String
  cover_url : Option String
  description : Option String
  subjects : Option (List String)
  extra : Option (List (String × String))
deriving DecidableEq, Repr

/-- Does `pat` occur as a contiguous sublist of `hay`? -/
def containsSublist (hay pat : List Char) : Bool :=
  hay.tails.any (fun t => pat.isPrefixOf t)

/-- SQL `ilike` with surrounding wildcards: case-insensitive substring test. -/
def ilikeContains (column pat : String) : Bool :=
  containsSublist (py_lower column).toList (py_lower pat).toList

/-- Python truthiness of an optional string (`None` and `""` are falsy). -/
def optTruthy (o : Option String) : Bool :=
  match o with
  | none => false
  | some s => !(s == "")

/-- Row filter of `BookRepository.find_all`: a filter is applied only when
the corresponding argument is truthy (for strings) or not `None` (for year). -/
def matchesFilters (title author : Option String) (year : Option Int) (b : BookRec) : Bool :=
  (if optTruthy title then ilikeContains b.title (title.getD "") else true)
  && (if optTruthy author then ilikeContains b.author (author.getD "") else true)
  && (match year with | none => true | some y => b.year == y)

/-- `BookRepository.find_all`: count the filtered rows, then return the page
`offset`/`limit` slice of the filtered rows together with the total count. -/
def find_all (storage : List BookRec) (limit offset : Nat)
    (title author : Option String) (year : Option Int) : List BookRec × Nat :=
  let filtered := storage.filter (matchesFilters title author year)
  ((filtered.drop offset).take limit, filtered.length)

/-- Result shape of `PaginatedResponse`. -/
structure Paginated (α : Type) where
  items : List α
  total : Nat
  page : Nat
  page_size : Nat
  pages : Nat
deriving DecidableEq, Repr

/-- `PaginatedResponse.create`: `pages = (total + page_size - 1) // page_size`. -/
def PaginatedResponse.create {α : Type} (items : List α) (total : Nat)
    (page page_size : Nat) : Paginated α :=
  { items := items
    total := total
    page := page
    page_size := page_size
    pages := (total + page_size - 1) / page_size }

/-- `BookService.get_books`: fetch the page at offset `(page - 1) * page_size`
and wrap it in a paginated response. -/
def get_books (storage : List BookRec) (page page_size : Nat)
    (title author : Option String) (year : Option Int) : Paginated BookRec :=
  let r := find_all storage page_size ((page - 1) * page_size) title author year
  PaginatedResponse.create r.1 r.2 page page_size

/-! ### HTTP retry loop (`external/base/base_client.py`, `BaseApiClient._request`)

One iteration of the Python `for attempt in range(retries)` loop observes the
behaviour of the underlying `httpx` request: either a timeout exception, a
transport-level network error, or a response with a status code and a body.
`raise_for_status` turns a status of 400 or more into an `HTTPStatusError`;
a 204 status or an empty body yields the empty JSON object. -/

/-- Observable behaviour of one underlying HTTP attempt.  A `response` body of
`none` models empty response content. -/
inductive HttpAttempt (J : Type) where
  | timeout
  | netError
  | response (status : Nat) (content : Option J)
deriving DecidableEq, Repr

/-- The exception kinds `_request` can re-raise after its loop. -/
inductive ReqError where
  | timeoutErr
  | httpStatusErr (status : Nat)
  | networkErr
deriving DecidableEq, Repr

/-- Outcome of an `_request` call: the returned JSON value or the re-raised
error, plus the number of attempts actually issued and the backoff delays
slept between consecutive attempts (in seconds). -/
structure ReqTrace (J : Type) where
  result : Except ReqError J
  attemptsUsed : Nat
  delays : List ℚ
deriving Repr

/-- Is this attempt outcome one the loop retries after (timeout, network
error, or HTTP 5xx)?  4xx and any 2xx/3xx response terminate the loop. -/
def retryAfter {J : Type} : HttpAttempt J → Bool
  | .timeout => true
  | .netError => true
  | .response status _ => 500 ≤ status

/-- The retry loop of `_request`, as a recursion on the number of remaining
attempts.  `retries` is the total attempt budget, so the Python loop
variable `attempt` equals `retries - remaining`; `attempt == retries - 1`
(last iteration) corresponds to `remaining = 1`.  `empty` is the JSON value
returned for 204/empty responses.  The `remaining = 0` base case is
unreachable from `request` whenever `retries > 0`, because every exception
on the last iteration re-raises. -/
def runAttempts {J : Type} (retries : Nat) (backoff : ℚ) (empty : J)
    (outcome : Nat → HttpAttempt J) : Nat → ReqTrace J
  | 0 => ⟨Except.error ReqError.networkErr, 0, []⟩
  | r + 1 =>
    let attempt := retries - (r + 1)
    match outcome attempt with
    | .response status content =>
      if 400 ≤ status then
        -- raise_for_status raised HTTPStatusError
        if 500 ≤ status && decide (0 < r) then
          let rest := runAttempts retries backoff empty outcome r
          ⟨rest.result, rest.attemptsUsed + 1, backoff * 2 ^ attempt :: rest.delays⟩
        else
          ⟨Except.error (ReqError.httpStatusErr status), 1, []⟩
      else if status == 204 || content.isNone then
        ⟨Except.ok empty, 1, []⟩
      else
        ⟨Except.ok (content.getD empty), 1, []⟩
    | .timeout =>
      if r == 0 then
        ⟨Except.error ReqError.timeoutErr, 1, []⟩
      else
        let rest := runAttempts retries backoff empty outcome r
        ⟨rest.result, rest.attemptsUsed + 1, backoff * 2 ^ attempt :: rest.delays⟩
    | .netError =>
      if r == 0 then
        ⟨Except.error ReqError.networkErr, 1, []⟩
      else
        let rest := runAttempts retries backoff empty outcome r
        ⟨rest.result, rest.attemptsUsed + 1, backoff * 2 ^ attempt :: rest.delays⟩

/-- `BaseApiClient._request`: run the loop with the full attempt budget. -/
def request {J : Type} (retries : Nat) (backoff : ℚ) (empty : J)
    (outcome : Nat → HttpAttempt J) : ReqTrace J :=
  runAttempts retries backoff empty outcome retries

/-- Constructor default `retries=3` of `BaseApiClient.__init__`. -/
def defaultRetries : Nat := 3

/-- Constructor default `backoff=0.5` of `BaseApiClient.__init__`. -/
def defaultBackoff : ℚ := 1 / 2

/-! ### OpenLibrary result extraction (`external/openlibrary/client.py`) -/

/-- One document of the external search response
(`data["docs"][i]`), restricted to the fields `_extract_book_data` reads. -/
structure OLDoc where
  cover_i : Option Nat
  subject : List String
  publisher : Option (List String)
  language : Option (List String)
deriving DecidableEq, Repr

/-- The normalized lookup result that `_extract_book_data` builds: a mapping
with zero or more of cover_url, subjects, publisher, language.  A field is
`none` exactly when the corresponding key is absent from the Python dict. -/
structure LookupResult where
  cover_url : Option String
  subjects : Option (List String)
  publisher : Option String
  language : Option String
deriving DecidableEq, Repr

/-- The empty lookup result (the Python empty dict). -/
def emptyResult : LookupResult := ⟨none, none, none, none⟩

/-- Python truthiness of the result dict: empty iff it has no keys. -/
def LookupResult.isEmpty (r : LookupResult) : Bool :=
  r.cover_url.isNone && r.subjects.isNone && r.publisher.isNone && r.language.isNone

/-- `OpenLibraryClient._extract_book_data`.  Each key is added only when the
source field is truthy: a present, nonzero `cover_i`; a nonempty `subject`
list (truncated to 5); a nonempty `publisher` / `language` list (first
element taken). -/
def extract_book_data (doc : OLDoc) : LookupResult :=
  { cover_url :=
      match doc.cover_i with
      | some cid =>
        if cid ≠ 0 then
          some ("https://covers.openlibrary.org/b/id/" ++ toString cid ++ "-L.jpg")
        else none
      | none => none
    subjects := if doc.subject.isEmpty then none else some (doc.subject.take 5)
    publisher := match doc.publisher with | some (p :: _) => some p | _ => none
    language := match doc.language with | some (l :: _) => some l | _ => none }

/-! ### The shared cache store

All components write to the same cache instance (namespace "library"); keys
are segregated by prefix.  Values are JSON documents: either a normalized
lookup result (under `ol:` keys) or a dumped book DTO (under `book:` keys). -/

/-- The book DTO built by `BookMapper.to_show_book`
(`api/v1/schemas/book.py`, `ShowBook`).  The mapper passes exactly these
fields; note it passes no `cover_url` — `ShowBook` has no such field. -/
structure ShowBook where
  book_id : Nat
  title : String
  author : String
  year : Int
  genre : Option String
  pages : Int
  available : Bool
  isbn : Option String
  description : Option String
  subjects : Option (List String)
  extra : Option (List (String × String))
deriving DecidableEq, Repr

/-- `BookMapper.to_show_book`. -/
def to_show_book (b : BookRec) : ShowBook :=
  { book_id := b.book_id
    title := b.title
    author := b.author
    year := b.year
    genre := b.genre
    pages := b.pages
    available := b.available
    isbn := b.isbn
    description := b.description
    subjects := b.subjects
    extra := b.extra }

/-- A JSON value stored in the cache. -/
inductive CVal where
  | lookup (r : LookupResult)
  | book (b : ShowBook)
deriving DecidableEq, Repr

/-- The cache contents: an association of keys to stored JSON values. -/
abbrev Cache := List (String × CVal)

/-- `cache.get`: the value stored under `k`, if any. -/
def cache_get (c : Cache) (k : String) : Option CVal :=
  (c.find? (fun p => p.1 == k)).map (fun p => p.2)

/-- `cache.set`: store `v` under `k`, overwriting any previous value. -/
def cache_set (c : Cache) (k : String) (v : CVal) : Cache :=
  (k, v) :: c.filter (fun p => !(p.1 == k))

/-- `cache.delete`: remove any entry stored under `k`. -/
def cache_delete (c : Cache) (k : String) : Cache :=
  c.filter (fun p => !(p.1 == k))

/-- A cached value read back under an `ol:` key.  By the key discipline only
lookup results are ever stored under these keys. -/
def cache_get_lookup (c : Cache) (k : String) : Option LookupResult :=
  match cache_get c k with
  | some (CVal.lookup r) => some r
  | _ => none

/-- A cached value read back under a `book:` key.  By the key discipline only
dumped book DTOs are ever stored under these keys. -/
def cache_get_book (c : Cache) (k : String) : Option ShowBook :=
  match cache_get c k with
  | some (CVal.book b) => some b
  | _ => none

/-! ### System state and the OpenLibrary client operations -/

/-- State threaded through the service and client operations: the books
table, the id the storage collaborator will assign next, the shared cache,
and the number of HTTP requests issued to the external service so far. -/
structure SysState where
  storage : List BookRec
  nextId : Nat
  cache : Cache
  calls : Nat
deriving DecidableEq, Repr

/-- Behaviour of the external service: the result of the n-th HTTP request
issued by the client, an exception (timeout exhausted, HTTP error, network
error, bad JSON — all absorbed identically) or the parsed `docs` array. -/
abbrev ExtBehavior := Nat → Except Unit (List OLDoc)

/-- The all-failures behaviour: every request raises (for example a timeout
on all retry attempts). -/
def extFail : ExtBehavior := fun _ => Except.error ()

/-- The result built from a search response: the first document extracted,
or the empty mapping when the `docs` array is empty. -/
def docsResult (docs : List OLDoc) : LookupResult :=
  match docs with
  | [] => emptyResult
  | d :: _ => extract_book_data d

/-- `OpenLibraryClient.search_by_isbn`: consult the cache under the ISBN
key; on a hit return the cached value.  On a miss issue the request; on
success extract the first document (or the empty result) and cache it —
even if empty; on an exception return the empty result and cache nothing. -/
def search_by_isbn (isbn : String) (ext : ExtBehavior) (s : SysState) :
    LookupResult × SysState :=
  match cache_get_lookup s.cache (CacheKeys.openlibrary_isbn isbn) with
  | some v => (v, s)
  | none =>
    match ext s.calls with
    | Except.error _ => (emptyResult, { s with calls := s.calls + 1 })
    | Except.ok docs =>
      (docsResult docs,
        { s with cache := cache_set s.cache (CacheKeys.openlibrary_isbn isbn)
                    (CVal.lookup (docsResult docs)),
                 calls := s.calls + 1 })

/-- `OpenLibraryClient.search_by_title_author`: same shape as the ISBN
lookup, keyed by the normalized title/author key. -/
def search_by_title_author (title author : String) (ext : ExtBehavior) (s : SysState) :
    LookupResult × SysState :=
  match cache_get_lookup s.cache (CacheKeys.openlibrary_title_author title author) with
  | some v => (v, s)
  | none =>
    match ext s.calls with
    | Except.error _ => (emptyResult, { s with calls := s.calls + 1 })
    | Except.ok docs =>
      (docsResult docs,
        { s with cache := cache_set s.cache (CacheKeys.openlibrary_title_author title author)
                    (CVal.lookup (docsResult docs)),
                 calls := s.calls + 1 })

/-- `OpenLibraryClient.enrich`: try the ISBN lookup when `isbn` is truthy
and return its result if nonempty; otherwise fall back to the title/author
lookup when both are truthy and return its result if nonempty; otherwise
return the empty dict. -/
def enrich (isbn title author : Option String) (ext : ExtBehavior) (s0 : SysState) :
    LookupResult × SysState :=
  let step1 :=
    if optTruthy isbn then search_by_isbn (isbn.getD "") ext s0
    else (emptyResult, s0)
  if !(step1.1.isEmpty) then step1
  else
    let step2 :=
      if optTruthy title && optTruthy author then
        search_by_title_author (title.getD "") (author.getD "") ext step1.2
      else (emptyResult, step1.2)
    if !(step2.1.isEmpty) then step2
    else (emptyResult, step2.2)

/-! ### Catalog service (`domain/services/book_service.py`) -/

/-- The validated create payload (`api/v1/schemas/book.py`, `BookCreate`). -/
structure BookCreate where
  title : String
  author : String
  year : Int
  pages : Int
  genre : Option String
  isbn : Option String
  description : Option String
deriving DecidableEq, Repr

/-- The domain exceptions `create_book` can raise. -/
inductive CreateErr where
  | invalidYear (year : Int)
  | invalidPages (pages : Int)
  | alreadyExists (isbn : String)
deriving DecidableEq, Repr

/-- `BookRepository.find_by_isbn`: the stored book whose ISBN column equals
the given ISBN, if any. -/
def find_by_isbn (storage : List BookRec) (isbn : String) : Option BookRec :=
  storage.find? (fun b => b.isbn == some isbn)

/-- The row handed to `BookRepository.create`: the request fields, the
enrichment values in the dedicated `cover_url`/`subjects` columns
(`extra_data.get(...) if extra_data else None`), `available` defaulting to
true, and the unfilled columns — `genre`, `description` and the JSON
`extra` column — left NULL. -/
def newBookFrom (bd : BookCreate) (nid : Nat) (extra_data : LookupResult) : BookRec :=
  { book_id := nid
    title := bd.title
    author := bd.author
    year := bd.year
    genre := none
    pages := bd.pages
    available := true
    isbn := bd.isbn
    cover_url := if extra_data.isEmpty then none else extra_data.cover_url
    description := none
    subjects := if extra_data.isEmpty then none else extra_data.subjects
    extra := none }

/-- The persist-and-invalidate tail of `create_book`, run once validation
and the duplicate check have passed, on the enrichment outcome `er`:
persist the new row, then delete the list key and — when the ISBN is
truthy — the ISBN lookup key, and return the mapped DTO. -/
def create_book_commit (bd : BookCreate) (er : LookupResult × SysState) :
    Except CreateErr ShowBook × SysState :=
  let newBook := newBookFrom bd er.2.nextId er.1
  let st2 := { er.2 with storage := er.2.storage ++ [newBook], nextId := er.2.nextId + 1 }
  let c1 := cache_delete st2.cache CacheKeys.books_list_all
  let c2 :=
    if optTruthy bd.isbn then cache_delete c1 (CacheKeys.openlibrary_isbn (bd.isbn.getD ""))
    else c1
  (Except.ok (to_show_book newBook), { st2 with cache := c2 })

/-- `BookService.create_book`.  In source order: validate the year against
the current year `cy`; validate pages when truthy; reject a duplicate ISBN;
enrich via the coordinator (its failures are already absorbed there, so the
`try/except` of `_enrich_book_data` has nothing left to catch in this
model); persist the new row (the JSON `extra` column is not among the
fields passed to `BookRepository.create`, so it stays NULL, while the
enrichment data lands in the dedicated `cover_url`/`subjects` columns);
then delete the list key and, when the ISBN is truthy, the ISBN lookup
key.  On any domain exception the unit of work rolls back and the state is
unchanged. -/
def create_book (cy : Int) (bd : BookCreate) (ext : ExtBehavior) (st : SysState) :
    Except CreateErr ShowBook × SysState :=
  if bd.year < 1000 || cy < bd.year then
    (Except.error (CreateErr.invalidYear bd.year), st)
  else if bd.pages ≠ 0 && bd.pages ≤ 0 then
    (Except.error (CreateErr.invalidPages bd.pages), st)
  else if optTruthy bd.isbn && (find_by_isbn st.storage (bd.isbn.getD "")).isSome then
    (Except.error (CreateErr.alreadyExists (bd.isbn.getD "")), st)
  else
    create_book_commit bd (enrich bd.isbn (some bd.title) (some bd.author) ext st)

/-- The not-found exception of the read and delete paths. -/
inductive NotFoundErr where
  | bookNotFound (book_id : Nat)
deriving DecidableEq, Repr

/-- `BookService.get_book`: serve the DTO from the detail cache when the
cached dict is truthy; otherwise read from storage, raise when absent, and
populate the detail cache with the dumped DTO. -/
def get_book (book_id : Nat) (st : SysState) :
    Except NotFoundErr ShowBook × SysState :=
  let key := CacheKeys.book_detail book_id
  match cache_get_book st.cache key with
  | some sb => (Except.ok sb, st)
  | none =>
    match st.storage.find? (fun b => b.book_id == book_id) with
    | none => (Except.error (NotFoundErr.bookNotFound book_id), st)
    | some b =>
      let sb := to_show_book b
      (Except.ok sb, { st with cache := cache_set st.cache key (CVal.book sb) })

/-- `BookService.delete_book`: raise when the id is unknown; otherwise
remember the row's ISBN, remove the row, then delete the detail key, the
list key, and — when the remembered ISBN is truthy — the ISBN lookup key. -/
def delete_book (book_id : Nat) (st : SysState) :
    Except NotFoundErr Unit × SysState :=
  match st.storage.find? (fun b => b.book_id == book_id) with
  | none => (Except.error (NotFoundErr.bookNotFound book_id), st)
  | some b =>
    let storage2 := st.storage.filter (fun x => !(x.book_id == book_id))
    let c1 := cache_delete st.cache (CacheKeys.book_detail book_id)
    let c2 := cache_delete c1 CacheKeys.books_list_all
    let c3 :=
      if optTruthy b.isbn then cache_delete c2 (CacheKeys.openlibrary_isbn (b.isbn.getD ""))
      else c2
    (Except.ok (), { st with storage := storage2, cache := c3 })

/-! ### Schema validation (`api/v1/schemas/book.py`) and the create pipeline -/

/-- A raw create request before pydantic validation. -/
structure RawBook where
  title : String
  author : String
  year : Int
  pages : Int
  genre : Option String
  isbn : Option String
  description : Option String
deriving DecidableEq, Repr

/-- The ISBN field validator of `BookCreate`: after removing hyphens and
spaces, the string with every X removed must be a nonempty digit string,
and the cleaned string must have 10 or 13 characters. -/
def isbnValid (v : String) : Bool :=
  let clean := (v.replace "-" "").replace " " ""
  pyIsDigit (clean.replace "X" "") && (clean.length == 10 || clean.length == 13)

/-- Pydantic validation of `BookCreate`: field bounds
(title 1..500, author 1..300, year 1000..2100, pages > 0, genre up to 100,
isbn 10..20 characters plus the field validator, description up to 5000). -/
def parseBookCreate (r : RawBook) : Option BookCreate :=
  if (1 ≤ r.title.length && r.title.length ≤ 500)
      && (1 ≤ r.author.length && r.author.length ≤ 300)
      && (1000 ≤ r.year && r.year ≤ 2100)
      && (0 < r.pages)
      && (match r.genre with | none => true | some g => g.length ≤ 100)
      && (match r.isbn with
          | none => true
          | some v => (10 ≤ v.length && v.length ≤ 20) && isbnValid v)
      && (match r.description with | none => true | some d => d.length ≤ 5000)
  then some ⟨r.title, r.author, r.year, r.pages, r.genre, r.isbn, r.description⟩
  else none

/-- How a raw create request can fail: rejected by schema validation, or by
one of the domain exceptions of `create_book`. -/
inductive PipelineErr where
  | schemaRejected
  | invalidYear (year : Int)
  | invalidPages (pages : Int)
  | duplicateIsbn (isbn : String)
deriving DecidableEq, Repr

/-- The create endpoint pipeline: pydantic validation of the payload, then
`BookService.create_book`. -/
def create_request (cy : Int) (r : RawBook) (ext : ExtBehavior) (st : SysState) :
    Except PipelineErr ShowBook × SysState :=
  match parseBookCreate r with
  | none => (Except.error PipelineErr.schemaRejected, st)
  | some bd =>
    match create_book cy bd ext st with
    | (Except.ok sb, st1) => (Except.ok sb, st1)
    | (Except.error (CreateErr.invalidYear y), st1) =>
      (Except.error (PipelineErr.invalidYear y), st1)
    | (Except.error (CreateErr.invalidPages p), st1) =>
      (Except.error (PipelineErr.invalidPages p), st1)
    | (Except.error (CreateErr.alreadyExists i), st1) =>
      (Except.error (PipelineErr.duplicateIsbn i), st1)

/-- ISBN uniqueness invariant over the books table: the ISBNs present on
rows are pairwise distinct. -/
def uniqueIsbns (storage : List BookRec) : Prop :=
  (storage.filterMap (fun b => b.isbn)).Nodup

/-! ### Shared lemmas about the cache store -/

theorem cache_get_set_self (c : Cache) (k : String) (v : CVal) :
    cache_get (cache_set c k v) k = some v := by
  simp [cache_get, cache_set]

theorem cache_get_lookup_set_self (c : Cache) (k : String) (r : LookupResult) :
    cache_get_lookup (cache_set c k (CVal.lookup r)) k = some r := by
  simp [cache_get_lookup, cache_get_set_self]

/-- With no filters supplied, `find_all` scans the whole table. -/
theorem filter_no_filters (storage : List BookRec) :
    storage.filter (matchesFilters none none none) = storage := by
  refine List.filter_eq_self.mpr (fun b _ => ?_)
  rfl

/-! ### Claim theorems -/

/-- C8: the title/author cache key is deterministic and case/whitespace
normalized — any two title/author pairs that agree after lowercasing and
stripping produce the same cache key. -/
theorem C8_title_author_key_normalized (t1 a1 t2 a2 : String)
    (ht : py_strip (py_lower t1) = py_strip (py_lower t2))
    (ha : py_strip (py_lower a1) = py_strip (py_lower a2)) :
    CacheKeys.openlibrary_title_author t1 a1 = CacheKeys.openlibrary_title_author t2 a2 := by
  simp [CacheKeys.openlibrary_title_author, ht, ha]

/-- Witness for C8 at the concrete pair from the specification:
lookup(" Title ", "AUTHOR") and lookup("title", "author") share a key. -/
theorem C8_title_author_key_normalized_witness :
    CacheKeys.openlibrary_title_author " Title " "AUTHOR"
      = CacheKeys.openlibrary_title_author "title" "author" :=
  C8_title_author_key_normalized " Title " "AUTHOR" "title" "author" (by decide) (by decide)

/-- C7 counterexample: it is not the case that external-lookup writes get a
300-second TTL while entity-detail writes get a 60-second TTL — the
entity-detail write in `get_book` passes no ttl argument, so it gets the
single instance default of 300 seconds. -/
theorem C7_counterexample :
    ¬ (openlibraryWriteTTL = 300 ∧ bookDetailWriteTTL = 60) := by
  decide

/-- C7 (amended): every cache write uses the single instance default
`cache_ttl = 300`; both the external-lookup writes and the entity-detail
write expire after 300 seconds. -/
theorem C7_single_default_ttl :
    openlibraryWriteTTL = cache_ttl ∧ bookDetailWriteTTL = cache_ttl
      ∧ cache_ttl = 300 := by
  decide

/-- C10: for an unfiltered catalog, page k holds the entries at offset
(k-1) * page_size, at most page_size of them; the reported page count is
the ceiling of total / page_size (characterized by the two inequalities);
and on a 25-entry catalog with page_size 20, page 1 has 20 items with
pages = 2 and page 2 has the remaining 5. -/
theorem C10_pagination (storage : List BookRec) (page ps : Nat) (hps : 0 < ps) :
    (get_books storage page ps none none none).items
        = (storage.drop ((page - 1) * ps)).take ps
    ∧ (get_books storage page ps none none none).items.length ≤ ps
    ∧ (get_books storage page ps none none none).total = storage.length
    ∧ storage.length ≤ (get_books storage page ps none none none).pages * ps
    ∧ (get_books storage page ps none none none).pages * ps < storage.length + ps
    ∧ (storage.length = 25 →
        (get_books storage 1 20 none none none).items.length = 20
        ∧ (get_books storage 1 20 none none none).pages = 2
        ∧ (get_books storage 2 20 none none none).items.length = 5) := by
  have hkey : storage.length ≤ ps * ((storage.length + ps - 1) / ps)
      ∧ ps * ((storage.length + ps - 1) / ps) < storage.length + ps := by
    have h1 := Nat.div_add_mod (storage.length + ps - 1) ps
    have h2 := Nat.mod_lt (storage.length + ps - 1) hps
    generalize hP : ps * ((storage.length + ps - 1) / ps) = P at h1 ⊢
    omega
  refine ⟨?_, ?_, ?_, ?_, ?_, ?_⟩
  · simp [get_books, find_all, PaginatedResponse.create, filter_no_filters]
  · simp [get_books, find_all, PaginatedResponse.create, filter_no_filters]
  · simp [get_books, find_all, PaginatedResponse.create, filter_no_filters]
  · simpa [get_books, find_all, PaginatedResponse.create, filter_no_filters,
      Nat.mul_comm] using hkey.1
  · simpa [get_books, find_all, PaginatedResponse.create, filter_no_filters,
      Nat.mul_comm] using hkey.2
  · intro hL
    refine ⟨?_, ?_, ?_⟩
    · simp [get_books, find_all, PaginatedResponse.create, filter_no_filters, hL]
    · simp [get_books, find_all, PaginatedResponse.create, filter_no_filters, hL]
    · simp [get_books, find_all, PaginatedResponse.create, filter_no_filters, hL]

/-- Witness for C10 on a concrete 25-entry catalog with page 1 of size 20. -/
theorem C10_pagination_witness :
    0 < 20
    ∧ ((get_books (List.replicate 25 (BookRec.mk 0 "t" "a" 2000 none 1 true
          none none none none none)) 1 20 none none none).items.length = 20
        ∧ (get_books (List.replicate 25 (BookRec.mk 0 "t" "a" 2000 none 1 true
          none none none none none)) 1 20 none none none).pages = 2) := by
  refine ⟨by decide, ?_, ?_⟩
  · have h := (C10_pagination (List.replicate 25 (BookRec.mk 0 "t" "a" 2000 none 1 true
      none none none none none)) 1 20 (by decide)).2.2.2.2.2 (by simp)
    exact h.1
  · have h := (C10_pagination (List.replicate 25 (BookRec.mk 0 "t" "a" 2000 none 1 true
      none none none none none)) 1 20 (by decide)).2.2.2.2.2 (by simp)
    exact h.2.1

/-- The behavioural invariant of the retry loop, relative to the loop
position `retries - rem` at which it is entered: at least one and at most
`rem` further attempts are issued; the delays slept between them follow the
exponential backoff schedule; every non-final attempt had a retryable
cause; and a final error is the timeout exception exactly when the final
attempt timed out. -/
def RunProps {J : Type} (retries : Nat) (backoff : ℚ) (empty : J)
    (outcome : Nat → HttpAttempt J) (rem : Nat) : Prop :=
  1 ≤ (runAttempts retries backoff empty outcome rem).attemptsUsed
  ∧ (runAttempts retries backoff empty outcome rem).attemptsUsed ≤ rem
  ∧ (runAttempts retries backoff empty outcome rem).delays
      = (List.range ((runAttempts retries backoff empty outcome rem).attemptsUsed - 1)).map
          (fun k => backoff * 2 ^ (retries - rem + k))
  ∧ (∀ k, k + 1 < (runAttempts retries backoff empty outcome rem).attemptsUsed →
      retryAfter (outcome (retries - rem + k)) = true)
  ∧ (∀ e, (runAttempts retries backoff empty outcome rem).result = Except.error e →
      (e = ReqError.timeoutErr ↔
        outcome (retries - rem + ((runAttempts retries backoff empty outcome rem).attemptsUsed - 1))
          = HttpAttempt.timeout))

/-- A loop iteration that terminates immediately (success, 4xx, or a final
exception) satisfies the invariant. -/
theorem RunProps_terminal {J : Type} (retries : Nat) (backoff : ℚ) (empty : J)
    (outcome : Nat → HttpAttempt J) (r : Nat) (res : Except ReqError J)
    (heq : runAttempts retries backoff empty outcome (r + 1) = ⟨res, 1, []⟩)
    (hclass : ∀ e, res = Except.error e →
      (e = ReqError.timeoutErr ↔ outcome (retries - (r + 1)) = HttpAttempt.timeout)) :
    RunProps retries backoff empty outcome (r + 1) := by
  unfold RunProps
  rw [heq]
  refine ⟨le_rfl, Nat.succ_le_succ (Nat.zero_le r), by simp, ?_, ?_⟩
  · intro k hk
    simp at hk
  · intro e he
    simpa using hclass e he

/-- A loop iteration that sleeps and retries preserves the invariant. -/
theorem RunProps_step {J : Type} (retries : Nat) (backoff : ℚ) (empty : J)
    (outcome : Nat → HttpAttempt J) (r : Nat) (hle : r + 1 ≤ retries)
    (ih : RunProps retries backoff empty outcome r)
    (heq : runAttempts retries backoff empty outcome (r + 1)
      = ⟨(runAttempts retries backoff empty outcome r).result,
         (runAttempts retries backoff empty outcome r).attemptsUsed + 1,
         backoff * 2 ^ (retries - (r + 1))
           :: (runAttempts retries backoff empty outcome r).delays⟩)
    (hretry : retryAfter (outcome (retries - (r + 1))) = true) :
    RunProps retries backoff empty outcome (r + 1) := by
  obtain ⟨ih1, ih2, ih3, ih4, ih5⟩ := ih
  have hidx : retries - r = retries - (r + 1) + 1 := by omega
  unfold RunProps
  rw [heq]
  refine ⟨Nat.succ_le_succ (Nat.zero_le _), Nat.succ_le_succ ih2, ?_, ?_, ?_⟩
  · show backoff * 2 ^ (retries - (r + 1))
          :: (runAttempts retries backoff empty outcome r).delays
        = (List.range ((runAttempts retries backoff empty outcome r).attemptsUsed + 1 - 1)).map
            (fun k => backoff * 2 ^ (retries - (r + 1) + k))
    obtain ⟨u0, hu0⟩ : ∃ u0,
        (runAttempts retries backoff empty outcome r).attemptsUsed = u0 + 1 :=
      ⟨(runAttempts retries backoff empty outcome r).attemptsUsed - 1, by omega⟩
    rw [ih3, hu0]
    simp only [Nat.add_sub_cancel, List.range_succ_eq_map, List.map_cons, List.map_map]
    have hfg : (fun k => backoff * 2 ^ (retries - r + k))
        = ((fun k => backoff * 2 ^ (retries - (r + 1) + k)) ∘ Nat.succ) := by
      funext k
      show backoff * 2 ^ (retries - r + k)
          = backoff * 2 ^ (retries - (r + 1) + Nat.succ k)
      rw [show retries - r + k = retries - (r + 1) + Nat.succ k from by omega]
    rw [hfg]
    show _ :: _ = ((fun k => backoff * 2 ^ (retries - (r + 1) + k)) 0) :: _
    rw [show (fun k => backoff * 2 ^ (retries - (r + 1) + k)) 0
        = backoff * 2 ^ (retries - (r + 1)) from by simp]
  · intro k hk
    have hk2 : k + 1 < (runAttempts retries backoff empty outcome r).attemptsUsed + 1 := hk
    match k with
    | 0 => simpa using hretry
    | k + 1 =>
      have h := ih4 k (by omega)
      rw [hidx] at h
      rw [show retries - (r + 1) + (k + 1) = retries - (r + 1) + 1 + k from by omega]
      exact h
  · intro e he
    have he2 : (runAttempts retries backoff empty outcome r).result = Except.error e := he
    have h := ih5 e he2
    rw [hidx] at h
    show e = ReqError.timeoutErr ↔
      outcome (retries - (r + 1)
        + ((runAttempts retries backoff empty outcome r).attemptsUsed + 1 - 1))
      = HttpAttempt.timeout
    rw [show retries - (r + 1)
          + ((runAttempts retries backoff empty outcome r).attemptsUsed + 1 - 1)
        = retries - (r + 1) + 1
          + ((runAttempts retries backoff empty outcome r).attemptsUsed - 1) from by omega]
    exact h

/-- The retry-loop invariant holds at every entry point of the loop. -/
theorem runAttempts_spec {J : Type} (retries : Nat) (backoff : ℚ) (empty : J)
    (outcome : Nat → HttpAttempt J) :
    ∀ rem, 0 < rem → rem ≤ retries →
      RunProps retries backoff empty outcome rem := by
  intro rem
  induction rem with
  | zero => omega
  | succ r ih =>
    intro _ hle
    rcases hout : outcome (retries - (r + 1)) with _ | _ | ⟨status, content⟩
    · -- timeout
      by_cases hr0 : r = 0
      · subst hr0
        refine RunProps_terminal retries backoff empty outcome 0
          (Except.error ReqError.timeoutErr) (by simp [runAttempts, hout]) ?_
        intro e he
        simp at he
        subst he
        simp [hout]
      · have hbeq : (r == 0) = false := by simpa using hr0
        refine RunProps_step retries backoff empty outcome r hle
          (ih (by omega) (by omega)) (by simp [runAttempts, hout, hbeq]) ?_
        rw [hout]
        rfl
    · -- network error
      by_cases hr0 : r = 0
      · subst hr0
        refine RunProps_terminal retries backoff empty outcome 0
          (Except.error ReqError.networkErr) (by simp [runAttempts, hout]) ?_
        intro e he
        simp at he
        subst he
        simp [hout]
      · have hbeq : (r == 0) = false := by simpa using hr0
        refine RunProps_step retries backoff empty outcome r hle
          (ih (by omega) (by omega)) (by simp [runAttempts, hout, hbeq]) ?_
        rw [hout]
        rfl
    · -- response with a status and a body
      by_cases h4 : 400 ≤ status
      · by_cases h5 : 500 ≤ status ∧ 0 < r
        · -- 5xx with attempts to spare: retried
          have hb : (decide (500 ≤ status) && decide (0 < r)) = true := by
            simp [h5.1, h5.2]
          refine RunProps_step retries backoff empty outcome r hle
            (ih h5.2 (by omega)) (by simp [runAttempts, hout, h4, hb]) ?_
          rw [hout]
          simp [retryAfter, h5.1]
        · -- 4xx, or a 5xx on the last attempt: the HTTP error is raised
          have hb : (decide (500 ≤ status) && decide (0 < r)) = false := by
            rcases Decidable.em (500 ≤ status) with h | h
            · have hnr : ¬ 0 < r := fun hrr => h5 ⟨h, hrr⟩
              simp [hnr]
            · simp [h]
          refine RunProps_terminal retries backoff empty outcome r
            (Except.error (ReqError.httpStatusErr status))
            (by simp [runAttempts, hout, h4, hb]) ?_
          intro e he
          simp at he
          subst he
          simp [hout]
      · -- 2xx/3xx: returned without retry (empty or parsed body)
        by_cases hemp : (status == 204 || content.isNone) = true
        · refine RunProps_terminal retries backoff empty outcome r
            (Except.ok empty) (by simp [runAttempts, hout, h4, hemp]) ?_
          intro e he
          simp at he
        · refine RunProps_terminal retries backoff empty outcome r
            (Except.ok (content.getD empty))
            (by simp [runAttempts, hout, h4, hemp]) ?_
          intro e he
          simp at he

/-- C3: every external request makes at most `retries` attempts (default 3);
the delay slept before re-attempt k+1 is backoff * 2^k; every non-final
attempt ended in a timeout, a network error, or an HTTP 5xx (so 4xx and
successful — even empty — responses are never retried); and when the call
fails, the re-raised error is the timeout exception exactly when the final
attempt's cause was a timeout, and a non-timeout (HTTP/network) error
otherwise. -/
theorem C3_retry_policy {J : Type} (retries : Nat) (backoff : ℚ) (empty : J)
    (outcome : Nat → HttpAttempt J) (hr : 0 < retries) :
    defaultRetries = 3
    ∧ 1 ≤ (request retries backoff empty outcome).attemptsUsed
    ∧ (request retries backoff empty outcome).attemptsUsed ≤ retries
    ∧ (request retries backoff empty outcome).delays
        = (List.range ((request retries backoff empty outcome).attemptsUsed - 1)).map
            (fun k => backoff * 2 ^ k)
    ∧ (∀ k, k + 1 < (request retries backoff empty outcome).attemptsUsed →
        retryAfter (outcome k) = true)
    ∧ (∀ e, (request retries backoff empty outcome).result = Except.error e →
        (e = ReqError.timeoutErr ↔
          outcome ((request retries backoff empty outcome).attemptsUsed - 1)
            = HttpAttempt.timeout)) := by
  have h := runAttempts_spec retries backoff empty outcome retries hr le_rfl
  obtain ⟨h1, h2, h3, h4, h5⟩ := h
  simp only [Nat.sub_self, Nat.zero_add] at h1 h2 h3 h4 h5
  exact ⟨rfl, h1, h2, h3, h4, h5⟩

/-- Witness for C3 at the defaults (3 attempts, backoff 1/2) against a
service that times out on every attempt. -/
theorem C3_retry_policy_witness :
    0 < 3
    ∧ (defaultRetries = 3
      ∧ 1 ≤ (request 3 defaultBackoff (0 : Nat) (fun _ => HttpAttempt.timeout)).attemptsUsed
      ∧ (request 3 defaultBackoff (0 : Nat) (fun _ => HttpAttempt.timeout)).attemptsUsed ≤ 3
      ∧ (request 3 defaultBackoff (0 : Nat) (fun _ => HttpAttempt.timeout)).delays
          = (List.range ((request 3 defaultBackoff (0 : Nat)
                (fun _ => HttpAttempt.timeout)).attemptsUsed - 1)).map
              (fun k => defaultBackoff * 2 ^ k)
      ∧ (∀ k, k + 1 < (request 3 defaultBackoff (0 : Nat)
            (fun _ => HttpAttempt.timeout)).attemptsUsed →
          retryAfter ((fun _ => HttpAttempt.timeout (J := Nat)) k) = true)
      ∧ (∀ e, (request 3 defaultBackoff (0 : Nat)
            (fun _ => HttpAttempt.timeout)).result = Except.error e →
          (e = ReqError.timeoutErr ↔
            (fun _ => HttpAttempt.timeout (J := Nat))
                ((request 3 defaultBackoff (0 : Nat)
                  (fun _ => HttpAttempt.timeout)).attemptsUsed - 1)
              = HttpAttempt.timeout))) :=
  ⟨by decide, C3_retry_policy 3 defaultBackoff 0 (fun _ => HttpAttempt.timeout) (by decide)⟩

/-- A failing external call leaves the client returning the empty result and
incrementing only the request counter. -/
theorem search_by_isbn_fail (isbn : String) (st : SysState)
    (h1 : cache_get_lookup st.cache (CacheKeys.openlibrary_isbn isbn) = none) :
    search_by_isbn isbn extFail st = (emptyResult, { st with calls := st.calls + 1 }) := by
  simp [search_by_isbn, h1, extFail]

/-- Title/author analogue of `search_by_isbn_fail`. -/
theorem search_by_title_author_fail (title author : String) (st : SysState)
    (h2 : cache_get_lookup st.cache (CacheKeys.openlibrary_title_author title author) = none) :
    search_by_title_author title author extFail st
      = (emptyResult, { st with calls := st.calls + 1 }) := by
  simp [search_by_title_author, h2, extFail]

/-- C6: enrichment lookup is idempotent per ISBN within the TTL window —
as long as the first lookup's external call succeeds (the cached-entry case
needs no call at all), an immediately repeated lookup returns the identical
value and is served from the cache, issuing no second external request and
changing nothing. -/
theorem C6_isbn_lookup_idempotent (isbn : String) (ext : ExtBehavior) (s : SysState)
    (docs : List OLDoc) (hok : ext s.calls = Except.ok docs) :
    (search_by_isbn isbn ext (search_by_isbn isbn ext s).2).1
        = (search_by_isbn isbn ext s).1
    ∧ (search_by_isbn isbn ext (search_by_isbn isbn ext s).2).2.calls
        = (search_by_isbn isbn ext s).2.calls
    ∧ search_by_isbn isbn ext (search_by_isbn isbn ext s).2
        = search_by_isbn isbn ext s := by
  have hmain : search_by_isbn isbn ext (search_by_isbn isbn ext s).2
      = search_by_isbn isbn ext s := by
    rcases hc : cache_get_lookup s.cache (CacheKeys.openlibrary_isbn isbn) with _ | v
    · have h1 : search_by_isbn isbn ext s
          = (docsResult docs,
            { s with
                cache := cache_set s.cache (CacheKeys.openlibrary_isbn isbn)
                  (CVal.lookup (docsResult docs)),
                calls := s.calls + 1 }) := by
        unfold search_by_isbn
        rw [hc, hok]
      rw [h1]
      simp [search_by_isbn, cache_get_lookup_set_self]
    · have h1 : search_by_isbn isbn ext s = (v, s) := by
        unfold search_by_isbn
        rw [hc]
      rw [h1]
      exact h1
  exact ⟨by rw [hmain], by rw [hmain], hmain⟩

/-- Witness for C6: a fresh state, an external service returning one
document with cover id 7. -/
theorem C6_isbn_lookup_idempotent_witness :
    ((fun _ => Except.ok [OLDoc.mk (some 7) [] none none] : ExtBehavior)
        (SysState.mk [] 0 [] 0).calls = Except.ok [OLDoc.mk (some 7) [] none none])
    ∧ ((search_by_isbn "i" (fun _ => Except.ok [OLDoc.mk (some 7) [] none none])
          (search_by_isbn "i" (fun _ => Except.ok [OLDoc.mk (some 7) [] none none])
            (SysState.mk [] 0 [] 0)).2).1
        = (search_by_isbn "i" (fun _ => Except.ok [OLDoc.mk (some 7) [] none none])
            (SysState.mk [] 0 [] 0)).1
      ∧ (search_by_isbn "i" (fun _ => Except.ok [OLDoc.mk (some 7) [] none none])
          (search_by_isbn "i" (fun _ => Except.ok [OLDoc.mk (some 7) [] none none])
            (SysState.mk [] 0 [] 0)).2).2.calls
        = (search_by_isbn "i" (fun _ => Except.ok [OLDoc.mk (some 7) [] none none])
            (SysState.mk [] 0 [] 0)).2.calls
      ∧ search_by_isbn "i" (fun _ => Except.ok [OLDoc.mk (some 7) [] none none])
          (search_by_isbn "i" (fun _ => Except.ok [OLDoc.mk (some 7) [] none none])
            (SysState.mk [] 0 [] 0)).2
        = search_by_isbn "i" (fun _ => Except.ok [OLDoc.mk (some 7) [] none none])
            (SysState.mk [] 0 [] 0)) :=
  ⟨rfl, C6_isbn_lookup_idempotent "i" (fun _ => Except.ok [OLDoc.mk (some 7) [] none none])
    (SysState.mk [] 0 [] 0) [OLDoc.mk (some 7) [] none none] rfl⟩

/-- C9: when the external call raises, `search_by_isbn` and
`search_by_title_author` return the empty mapping and write nothing to the
cache; a repeated lookup for the same key therefore misses again and
contacts the external service a second time. -/
theorem C9_failures_not_cached (isbn title author : String) (ext : ExtBehavior)
    (s t : SysState)
    (hmiss : cache_get_lookup s.cache (CacheKeys.openlibrary_isbn isbn) = none)
    (herr : ext s.calls = Except.error ())
    (hmiss2 : cache_get_lookup t.cache
        (CacheKeys.openlibrary_title_author title author) = none)
    (herr2 : ext t.calls = Except.error ()) :
    ((search_by_isbn isbn ext s).1 = emptyResult
      ∧ (search_by_isbn isbn ext s).2.cache = s.cache
      ∧ (search_by_isbn isbn ext (search_by_isbn isbn ext s).2).2.calls = s.calls + 2)
    ∧ ((search_by_title_author title author ext t).1 = emptyResult
      ∧ (search_by_title_author title author ext t).2.cache = t.cache
      ∧ (search_by_title_author title author ext
          (search_by_title_author title author ext t).2).2.calls = t.calls + 2) := by
  constructor
  · have h1 : search_by_isbn isbn ext s = (emptyResult, { s with calls := s.calls + 1 }) := by
      unfold search_by_isbn
      rw [hmiss, herr]
    refine ⟨by rw [h1], by rw [h1], ?_⟩
    rw [h1]
    unfold search_by_isbn
    rw [show ({ s with calls := s.calls + 1 } : SysState).cache = s.cache from rfl, hmiss]
    rcases h2 : ext ({ s with calls := s.calls + 1 } : SysState).calls with _ | docs <;> simp
  · have h1 : search_by_title_author title author ext t
        = (emptyResult, { t with calls := t.calls + 1 }) := by
      unfold search_by_title_author
      rw [hmiss2, herr2]
    refine ⟨by rw [h1], by rw [h1], ?_⟩
    rw [h1]
    unfold search_by_title_author
    rw [show ({ t with calls := t.calls + 1 } : SysState).cache = t.cache from rfl, hmiss2]
    rcases h2 : ext ({ t with calls := t.calls + 1 } : SysState).calls with _ | docs <;> simp

/-- Witness for C9: fresh states against an always-raising service. -/
theorem C9_failures_not_cached_witness :
    (cache_get_lookup (SysState.mk [] 0 [] 0).cache (CacheKeys.openlibrary_isbn "i") = none
      ∧ extFail (SysState.mk [] 0 [] 0).calls = Except.error ()
      ∧ cache_get_lookup (SysState.mk [] 0 [] 0).cache
          (CacheKeys.openlibrary_title_author "t" "a") = none
      ∧ extFail (SysState.mk [] 0 [] 0).calls = Except.error ())
    ∧ (((search_by_isbn "i" extFail (SysState.mk [] 0 [] 0)).1 = emptyResult
      ∧ (search_by_isbn "i" extFail (SysState.mk [] 0 [] 0)).2.cache
          = (SysState.mk [] 0 [] 0).cache
      ∧ (search_by_isbn "i" extFail
          (search_by_isbn "i" extFail (SysState.mk [] 0 [] 0)).2).2.calls
          = (SysState.mk [] 0 [] 0).calls + 2)
    ∧ ((search_by_title_author "t" "a" extFail (SysState.mk [] 0 [] 0)).1 = emptyResult
      ∧ (search_by_title_author "t" "a" extFail (SysState.mk [] 0 [] 0)).2.cache
          = (SysState.mk [] 0 [] 0).cache
      ∧ (search_by_title_author "t" "a" extFail
          (search_by_title_author "t" "a" extFail (SysState.mk [] 0 [] 0)).2).2.calls
          = (SysState.mk [] 0 [] 0).calls + 2)) :=
  ⟨⟨rfl, rfl, rfl, rfl⟩,
    C9_failures_not_cached "i" "t" "a" extFail (SysState.mk [] 0 [] 0) (SysState.mk [] 0 [] 0)
      rfl rfl rfl rfl⟩

/-- ISBN lookup touches only the cache and the request counter. -/
theorem search_by_isbn_storage (isbn : String) (ext : ExtBehavior) (s : SysState) :
    (search_by_isbn isbn ext s).2.storage = s.storage := by
  unfold search_by_isbn
  rcases cache_get_lookup s.cache (CacheKeys.openlibrary_isbn isbn) with _ | v
  · rcases ext s.calls with _ | docs <;> simp
  · simp

theorem search_by_isbn_nextId (isbn : String) (ext : ExtBehavior) (s : SysState) :
    (search_by_isbn isbn ext s).2.nextId = s.nextId := by
  unfold search_by_isbn
  rcases cache_get_lookup s.cache (CacheKeys.openlibrary_isbn isbn) with _ | v
  · rcases ext s.calls with _ | docs <;> simp
  · simp

/-- Title/author lookup touches only the cache and the request counter. -/
theorem search_by_title_author_storage (title author : String) (ext : ExtBehavior) (s : SysState) :
    (search_by_title_author title author ext s).2.storage = s.storage := by
  unfold search_by_title_author
  rcases cache_get_lookup s.cache (CacheKeys.openlibrary_title_author title author) with _ | v
  · rcases ext s.calls with _ | docs <;> simp
  · simp

theorem search_by_title_author_nextId (title author : String) (ext : ExtBehavior) (s : SysState) :
    (search_by_title_author title author ext s).2.nextId = s.nextId := by
  unfold search_by_title_author
  rcases cache_get_lookup s.cache (CacheKeys.openlibrary_title_author title author) with _ | v
  · rcases ext s.calls with _ | docs <;> simp
  · simp

/-- Enrichment never touches the books table. -/
theorem enrich_storage (isbn title author : Option String) (ext : ExtBehavior) (st : SysState) :
    (enrich isbn title author ext st).2.storage = st.storage := by
  unfold enrich
  simp only [apply_ite (fun p : LookupResult × SysState => p.2.storage),
    search_by_isbn_storage, search_by_title_author_storage, ite_self]

/-- Enrichment never touches the id counter of the storage collaborator. -/
theorem enrich_nextId (isbn title author : Option String) (ext : ExtBehavior) (st : SysState) :
    (enrich isbn title author ext st).2.nextId = st.nextId := by
  unfold enrich
  simp only [apply_ite (fun p : LookupResult × SysState => p.2.nextId),
    search_by_isbn_nextId, search_by_title_author_nextId, ite_self]

/-- When every external request raises and neither key is cached,
enrichment returns the empty result and the cache is untouched. -/
theorem enrich_extFail (isbn title author : Option String) (st : SysState)
    (h1 : cache_get_lookup st.cache (CacheKeys.openlibrary_isbn (isbn.getD "")) = none)
    (h2 : cache_get_lookup st.cache
        (CacheKeys.openlibrary_title_author (title.getD "") (author.getD "")) = none) :
    (enrich isbn title author extFail st).1 = emptyResult
    ∧ (enrich isbn title author extFail st).2.cache = st.cache := by
  have hs1 := search_by_isbn_fail (isbn.getD "") st h1
  have h2a : cache_get_lookup ({ st with calls := st.calls + 1 } : SysState).cache
      (CacheKeys.openlibrary_title_author (title.getD "") (author.getD "")) = none := h2
  have hs2 := search_by_title_author_fail (title.getD "") (author.getD "")
    ({ st with calls := st.calls + 1 }) h2a
  have hs2b := search_by_title_author_fail (title.getD "") (author.getD "") st h2
  by_cases hi : optTruthy isbn = true <;>
    by_cases hta : (optTruthy title && optTruthy author) = true <;>
      simp [enrich, hi, hta, hs1, hs2, hs2b, emptyResult, LookupResult.isEmpty]

/-- The domain-exception component of a `create_book` outcome. -/
def createErrOf (p : Except CreateErr ShowBook × SysState) : Option CreateErr :=
  match p.1 with
  | Except.error e => some e
  | Except.ok _ => none

/-- C1: the external metadata client cannot make `create_book` raise —
whether the call fails, and with which of the domain exceptions
(validation, duplicate ISBN), is independent of the client's behaviour;
and when every external request raises (for example a timeout on all retry
attempts) the book is still created, with the enrichment columns and the
`extra` mapping empty/absent. -/
theorem C1_external_failures_absorbed (cy : Int) (bd : BookCreate) (st : SysState)
    (h1 : cache_get_lookup st.cache (CacheKeys.openlibrary_isbn (bd.isbn.getD "")) = none)
    (h2 : cache_get_lookup st.cache
        (CacheKeys.openlibrary_title_author bd.title bd.author) = none) :
    (∀ e1 e2 : ExtBehavior,
        createErrOf (create_book cy bd e1 st) = createErrOf (create_book cy bd e2 st))
    ∧ (∀ sb st1, create_book cy bd extFail st = (Except.ok sb, st1) →
        sb.extra = none ∧ sb.subjects = none
        ∧ ∃ b, st1.storage = st.storage ++ [b]
            ∧ b.cover_url = none ∧ b.subjects = none ∧ b.extra = none)
    ∧ (1000 ≤ bd.year → bd.year ≤ cy → ¬ bd.pages < 0 →
        (optTruthy bd.isbn = true → find_by_isbn st.storage (bd.isbn.getD "") = none) →
        (create_book cy bd extFail st).1.isOk = true) := by
  obtain ⟨hE1, hE2⟩ := enrich_extFail bd.isbn (some bd.title) (some bd.author) st
    (by simpa using h1) (by simpa using h2)
  refine ⟨?_, ?_, ?_⟩
  · intro e1 e2
    unfold create_book
    split_ifs <;> simp [createErrOf, create_book_commit]
  · intro sb st1 h
    unfold create_book at h
    split_ifs at h
    · simp at h
    · simp at h
    · simp at h
    · rw [create_book_commit] at h
      obtain ⟨hsb, hst⟩ := Prod.mk.injEq .. ▸ h
      refine ⟨?_, ?_, ?_⟩
      · have : sb = to_show_book (newBookFrom bd
            (enrich bd.isbn (some bd.title) (some bd.author) extFail st).2.nextId
            (enrich bd.isbn (some bd.title) (some bd.author) extFail st).1) := by
          exact (Except.ok.injEq .. ▸ hsb).symm
        rw [this]
        rfl
      · have : sb = to_show_book (newBookFrom bd
            (enrich bd.isbn (some bd.title) (some bd.author) extFail st).2.nextId
            (enrich bd.isbn (some bd.title) (some bd.author) extFail st).1) := by
          exact (Except.ok.injEq .. ▸ hsb).symm
        rw [this, to_show_book, newBookFrom, hE1]
        simp [emptyResult, LookupResult.isEmpty]
      · refine ⟨newBookFrom bd
            (enrich bd.isbn (some bd.title) (some bd.author) extFail st).2.nextId
            (enrich bd.isbn (some bd.title) (some bd.author) extFail st).1, ?_, ?_, ?_, ?_⟩
        · rw [← hst]
          simp [enrich_storage]
        · rw [newBookFrom, hE1]
          simp [emptyResult, LookupResult.isEmpty]
        · rw [newBookFrom, hE1]
          simp [emptyResult, LookupResult.isEmpty]
        · rfl
  · intro hy1 hy2 hp hdup
    unfold create_book
    rw [if_neg, if_neg, if_neg]
    · simp [create_book_commit, Except.isOk, Except.toBool]
    · intro hc
      rcases Bool.and_eq_true .. ▸ hc with ⟨ht, hs⟩
      rw [hdup ht] at hs
      simp at hs
    · intro hc
      rcases Bool.and_eq_true .. ▸ hc with ⟨hne, hle⟩
      simp only [decide_eq_true_eq] at hne hle
      omega
    · intro hc
      rcases Bool.or_eq_true .. ▸ hc with hlt | hgt
      · simp only [decide_eq_true_eq] at hlt
        omega
      · simp only [decide_eq_true_eq] at hgt
        omega

/-- Witness for C1 on a fresh state and a concrete request. -/
theorem C1_external_failures_absorbed_witness :
    (cache_get_lookup (SysState.mk [] 0 [] 0).cache
        (CacheKeys.openlibrary_isbn (((BookCreate.mk "T" "A" 2000 10 none none none)).isbn.getD ""))
        = none
      ∧ cache_get_lookup (SysState.mk [] 0 [] 0).cache
          (CacheKeys.openlibrary_title_author (BookCreate.mk "T" "A" 2000 10 none none none).title
            (BookCreate.mk "T" "A" 2000 10 none none none).author) = none)
    ∧ ((∀ e1 e2 : ExtBehavior,
        createErrOf (create_book 2025 (BookCreate.mk "T" "A" 2000 10 none none none) e1
            (SysState.mk [] 0 [] 0))
          = createErrOf (create_book 2025 (BookCreate.mk "T" "A" 2000 10 none none none) e2
            (SysState.mk [] 0 [] 0)))
      ∧ (∀ sb st1, create_book 2025 (BookCreate.mk "T" "A" 2000 10 none none none) extFail
            (SysState.mk [] 0 [] 0) = (Except.ok sb, st1) →
          sb.extra = none ∧ sb.subjects = none
          ∧ ∃ b, st1.storage = (SysState.mk [] 0 [] 0).storage ++ [b]
              ∧ b.cover_url = none ∧ b.subjects = none ∧ b.extra = none)
      ∧ (1000 ≤ (BookCreate.mk "T" "A" 2000 10 none none none).year →
          (BookCreate.mk "T" "A" 2000 10 none none none).year ≤ 2025 →
          ¬ (BookCreate.mk "T" "A" 2000 10 none none none).pages < 0 →
          (optTruthy (BookCreate.mk "T" "A" 2000 10 none none none).isbn = true →
            find_by_isbn (SysState.mk [] 0 [] 0).storage
              ((BookCreate.mk "T" "A" 2000 10 none none none).isbn.getD "") = none) →
          (create_book 2025 (BookCreate.mk "T" "A" 2000 10 none none none) extFail
            (SysState.mk [] 0 [] 0)).1.isOk = true)) :=
  ⟨⟨rfl, rfl⟩,
    C1_external_failures_absorbed 2025 (BookCreate.mk "T" "A" 2000 10 none none none)
      (SysState.mk [] 0 [] 0) rfl rfl⟩

/-- C4: any create request whose year lies outside [1000, current_year] or
whose pages are not positive is rejected — by the pydantic schema or by the
service validators — with a validation error, before any external call and
before any persistence: the system state is returned unchanged. -/
theorem C4_validation_rejects_before_effects (cy : Int) (r : RawBook) (ext : ExtBehavior)
    (st : SysState) (hviol : r.year < 1000 ∨ cy < r.year ∨ r.pages ≤ 0) :
    ((create_request cy r ext st).1 = Except.error PipelineErr.schemaRejected
      ∨ (create_request cy r ext st).1 = Except.error (PipelineErr.invalidYear r.year))
    ∧ (create_request cy r ext st).2 = st := by
  unfold create_request
  rcases hp : parseBookCreate r with _ | bd
  · exact ⟨Or.inl rfl, rfl⟩
  · unfold parseBookCreate at hp
    split at hp
    case isFalse => simp at hp
    case isTrue hcond =>
      cases hp
      simp only [Bool.and_eq_true, decide_eq_true_eq] at hcond
      obtain ⟨⟨⟨⟨⟨⟨hT, hA⟩, hY⟩, hP⟩, hG⟩, hI⟩, hD⟩ := hcond
      have hcy : cy < r.year := by omega
      have hg : create_book cy
          ⟨r.title, r.author, r.year, r.pages, r.genre, r.isbn, r.description⟩ ext st
          = (Except.error (CreateErr.invalidYear r.year), st) := by
        unfold create_book
        rw [if_pos]
        simp [hcy]
      simp only [hg]
      simp

/-- Witness for C4 at a concrete violating request (year 500). -/
theorem C4_validation_rejects_before_effects_witness :
    ((RawBook.mk "T" "A" 500 10 none none none).year < 1000
      ∨ (2025 : Int) < (RawBook.mk "T" "A" 500 10 none none none).year
      ∨ (RawBook.mk "T" "A" 500 10 none none none).pages ≤ 0)
    ∧ (((create_request 2025 (RawBook.mk "T" "A" 500 10 none none none) extFail
          (SysState.mk [] 0 [] 0)).1 = Except.error PipelineErr.schemaRejected
        ∨ (create_request 2025 (RawBook.mk "T" "A" 500 10 none none none) extFail
            (SysState.mk [] 0 [] 0)).1
          = Except.error (PipelineErr.invalidYear (RawBook.mk "T" "A" 500 10 none none none).year))
      ∧ (create_request 2025 (RawBook.mk "T" "A" 500 10 none none none) extFail
          (SysState.mk [] 0 [] 0)).2 = SysState.mk [] 0 [] 0) :=
  ⟨by decide,
    C4_validation_rejects_before_effects 2025 (RawBook.mk "T" "A" 500 10 none none none)
      extFail (SysState.mk [] 0 [] 0) (by decide)⟩

/-- Failures of `create_book` persist nothing: the state comes back as it
went in. -/
theorem create_book_err_state (cy : Int) (bd : BookCreate) (ext : ExtBehavior) (st : SysState) :
    ∀ e, (create_book cy bd ext st).1 = Except.error e → (create_book cy bd ext st).2 = st := by
  unfold create_book
  split_ifs <;> intro e he
  · rfl
  · rfl
  · rfl
  · simp [create_book_commit] at he

/-- C5: ISBN uniqueness is an invariant of the service.  A failing create
(in particular the duplicate-ISBN conflict, which fires whenever a valid
request carries an ISBN already in storage) persists nothing; a successful
create appends exactly one row whose ISBN equals the request ISBN and
preserves uniqueness; and deletes preserve uniqueness.  The `bd.isbn ≠
some ""` hypothesis records that the pydantic schema never admits an empty
ISBN (10 characters minimum). -/
theorem C5_isbn_uniqueness (cy : Int) (bd : BookCreate) (ext : ExtBehavior) (st : SysState)
    (hu : uniqueIsbns st.storage) (hne : bd.isbn ≠ some "") :
    (∀ e, (create_book cy bd ext st).1 = Except.error e → (create_book cy bd ext st).2 = st)
    ∧ ((∃ s, bd.isbn = some s ∧ (find_by_isbn st.storage s).isSome = true) →
        1000 ≤ bd.year → bd.year ≤ cy → ¬ bd.pages < 0 →
        (create_book cy bd ext st).1
            = Except.error (CreateErr.alreadyExists (bd.isbn.getD ""))
          ∧ (create_book cy bd ext st).2 = st)
    ∧ (∀ sb st1, create_book cy bd ext st = (Except.ok sb, st1) →
        sb.isbn = bd.isbn ∧ uniqueIsbns st1.storage
        ∧ ∃ b, st1.storage = st.storage ++ [b] ∧ b.isbn = bd.isbn)
    ∧ (∀ bid, uniqueIsbns (delete_book bid st).2.storage) := by
  refine ⟨create_book_err_state cy bd ext st, ?_, ?_, ?_⟩
  · rintro ⟨s, hs, hfind⟩ hy1 hy2 hp
    have hsne : s ≠ "" := by
      intro hcontra
      exact hne (hcontra ▸ hs)
    have hg1 : ¬ ((decide (bd.year < 1000) || decide (cy < bd.year)) = true) := by
      simp only [Bool.or_eq_true, decide_eq_true_eq]
      omega
    have hg2 : ¬ ((decide (bd.pages ≠ 0) && decide (bd.pages ≤ 0)) = true) := by
      simp only [Bool.and_eq_true, decide_eq_true_eq]
      omega
    have hg3 : (optTruthy bd.isbn && (find_by_isbn st.storage (bd.isbn.getD "")).isSome)
        = true := by
      rw [hs]
      simp [optTruthy, hsne, hfind]
    constructor
    · unfold create_book
      rw [if_neg hg1, if_neg hg2, if_pos hg3]
    · unfold create_book
      rw [if_neg hg1, if_neg hg2, if_pos hg3]
  · intro sb st1 h
    unfold create_book at h
    split_ifs at h with g1 g2 g3
    · simp at h
    · simp at h
    · simp at h
    · simp only [create_book_commit] at h
      rw [Prod.mk.injEq] at h
      obtain ⟨hsb, hst⟩ := h
      injection hsb with hsb
      subst hsb
      subst hst
      refine ⟨rfl, ?_, ?_⟩
      · show uniqueIsbns
          ((enrich bd.isbn (some bd.title) (some bd.author) ext st).2.storage
            ++ [newBookFrom bd (enrich bd.isbn (some bd.title) (some bd.author) ext st).2.nextId
                  (enrich bd.isbn (some bd.title) (some bd.author) ext st).1])
        rw [enrich_storage]
        unfold uniqueIsbns
        rw [List.filterMap_append]
        rcases hbi : bd.isbn with _ | s
        · simp only [newBookFrom, hbi]
          simp [uniqueIsbns] at hu
          simpa using hu
        · have hsne : s ≠ "" := by
            intro hcontra
            exact hne (hcontra ▸ hbi)
          have hnofind : (find_by_isbn st.storage s).isSome = false := by
            rcases hfb : (find_by_isbn st.storage s).isSome with _ | _
            · rfl
            · exfalso
              apply g3
              rw [hbi]
              simpa [optTruthy, hsne] using hfb
          have hnone : find_by_isbn st.storage s = none :=
            Option.not_isSome_iff_eq_none.mp (by simp [hnofind])
          have hnotmem : s ∉ st.storage.filterMap (fun b => b.isbn) := by
            intro hmem
            rcases List.mem_filterMap.mp hmem with ⟨b, hbmem, hbisbn⟩
            have := List.find?_eq_none.mp hnone b hbmem
            simp [hbisbn] at this
          simp only [newBookFrom, hbi]
          rw [List.nodup_append]
          refine ⟨hu, by simp, ?_⟩
          intro a ha hb
          simp at hb
          rw [hb] at ha
          exact hnotmem ha
      · refine ⟨newBookFrom bd
            (enrich bd.isbn (some bd.title) (some bd.author) ext st).2.nextId
            (enrich bd.isbn (some bd.title) (some bd.author) ext st).1, ?_, rfl⟩
        show (enrich bd.isbn (some bd.title) (some bd.author) ext st).2.storage ++ _
            = st.storage ++ _
        rw [enrich_storage]
  · intro bid
    unfold delete_book
    rcases hfind : st.storage.find? (fun b => b.book_id == bid) with _ | b
    · simp only [hfind]
      exact hu
    · simp only [hfind]
      show uniqueIsbns (st.storage.filter (fun x => !(x.book_id == bid)))
      unfold uniqueIsbns at hu ⊢
      exact hu.sublist (List.Sublist.filterMap _ (List.filter_sublist _))

/-- Witness for C5: a fresh catalog and a concrete request with a new ISBN. -/
theorem C5_isbn_uniqueness_witness :
    (uniqueIsbns (SysState.mk [] 0 [] 0).storage
      ∧ (BookCreate.mk "T" "A" 2000 10 none (some "1234567890") none).isbn ≠ some "")
    ∧ ((∀ e, (create_book 2025 (BookCreate.mk "T" "A" 2000 10 none (some "1234567890") none)
          extFail (SysState.mk [] 0 [] 0)).1 = Except.error e →
        (create_book 2025 (BookCreate.mk "T" "A" 2000 10 none (some "1234567890") none)
          extFail (SysState.mk [] 0 [] 0)).2 = SysState.mk [] 0 [] 0)
      ∧ ((∃ s, (BookCreate.mk "T" "A" 2000 10 none (some "1234567890") none).isbn = some s
            ∧ (find_by_isbn (SysState.mk [] 0 [] 0).storage s).isSome = true) →
          1000 ≤ (BookCreate.mk "T" "A" 2000 10 none (some "1234567890") none).year →
          (BookCreate.mk "T" "A" 2000 10 none (some "1234567890") none).year ≤ 2025 →
          ¬ (BookCreate.mk "T" "A" 2000 10 none (some "1234567890") none).pages < 0 →
          (create_book 2025 (BookCreate.mk "T" "A" 2000 10 none (some "1234567890") none)
              extFail (SysState.mk [] 0 [] 0)).1
            = Except.error (CreateErr.alreadyExists
                ((BookCreate.mk "T" "A" 2000 10 none (some "1234567890") none).isbn.getD ""))
          ∧ (create_book 2025 (BookCreate.mk "T" "A" 2000 10 none (some "1234567890") none)
              extFail (SysState.mk [] 0 [] 0)).2 = SysState.mk [] 0 [] 0)
      ∧ (∀ sb st1, create_book 2025 (BookCreate.mk "T" "A" 2000 10 none (some "1234567890") none)
            extFail (SysState.mk [] 0 [] 0) = (Except.ok sb, st1) →
          sb.isbn = (BookCreate.mk "T" "A" 2000 10 none (some "1234567890") none).isbn
          ∧ uniqueIsbns st1.storage
          ∧ ∃ b, st1.storage = (SysState.mk [] 0 [] 0).storage ++ [b]
              ∧ b.isbn = (BookCreate.mk "T" "A" 2000 10 none (some "1234567890") none).isbn)
      ∧ (∀ bid, uniqueIsbns (delete_book bid (SysState.mk [] 0 [] 0)).2.storage)) :=
  ⟨⟨by simp [uniqueIsbns], by decide⟩,
    C5_isbn_uniqueness 2025 (BookCreate.mk "T" "A" 2000 10 none (some "1234567890") none)
      extFail (SysState.mk [] 0 [] 0) (by simp [uniqueIsbns]) (by decide)⟩

/-! ### The end-to-end "Clean Code" scenario -/

/-- The create request of the end-to-end scenario. -/
def cleanCodeReq : BookCreate :=
  { title := "Clean Code", author := "Robert Martin", year := 2008, pages := 464,
    genre := none, isbn := some "978-0132350884", description := none }

/-- The mocked external service: every search responds with one document
whose only field is cover id 123. -/
def mockedExt : ExtBehavior :=
  fun _ => Except.ok [{ cover_i := some 123, subject := [], publisher := none, language := none }]

/-- The fresh system state: empty table, empty cache, no calls yet. -/
def st0 : SysState := { storage := [], nextId := 0, cache := [], calls := 0 }

/-- State after creating the book. -/
def c2_afterCreate : SysState := (create_book 2025 cleanCodeReq mockedExt st0).2

/-- State after reading the book by id (populates the detail cache key). -/
def c2_afterGet : SysState := (get_book 0 c2_afterCreate).2

/-- State after an ISBN enrichment lookup (repopulates the ISBN cache key,
which `create_book` had invalidated). -/
def c2_afterLookup : SysState := (search_by_isbn "978-0132350884" mockedExt c2_afterGet).2

/-- State after deleting the book. -/
def c2_afterDelete : SysState := (delete_book 0 c2_afterLookup).2

/-- C2 as the code actually behaves: the created row carries the cover URL
"https://covers.openlibrary.org/b/id/123-L.jpg" in its dedicated
`cover_url` column while its JSON `extra` column stays NULL (nothing ever
writes `extra`, so `extra.cover_url` does not hold the URL as the claim
demands); and deleting the book does invalidate both the entity-detail key
and the ISBN-lookup key, which were present just before the delete. -/
theorem C2_clean_code_scenario :
    c2_afterCreate.storage.map (fun b => (b.extra, b.cover_url, b.isbn))
      = [(none, some "https://covers.openlibrary.org/b/id/123-L.jpg",
          some "978-0132350884")]
    ∧ (cache_get c2_afterLookup.cache (CacheKeys.book_detail 0)).isSome = true
    ∧ (cache_get c2_afterLookup.cache
        (CacheKeys.openlibrary_isbn "978-0132350884")).isSome = true
    ∧ cache_get c2_afterDelete.cache (CacheKeys.book_detail 0) = none
    ∧ cache_get c2_afterDelete.cache (CacheKeys.openlibrary_isbn "978-0132350884") = none := by
  decide

end LibraryCatalog
